import Mathlib

/-!
Verification of the avatar repository's WebGL offscreen render target
(`CubismRenderTarget_WebGL`, `src/rendering/cubismrendertarget_webgl.ts`).

The WebGL rendering context is shallowly embedded as an explicit state
record `GLContext` carrying a trace of the calls issued to it and
configurable failure injection (`failTexture`, `failFramebuffer`,
`forceIncomplete`), playing the role of the mock context the spec's
testable properties describe.  GPU handles are `Option Nat` (with `none`
for the JavaScript `null`); a thrown JavaScript error (a `TypeError`
from a property access on the null `_gl` field, or the explicit
capability error thrown by `copyBuffer`) is an explicit `RTError` value.
Every class method is a pure function from the pair (context state,
target state) to the updated pair plus an optional error.
-/

/-- WebGL enum value `FRAMEBUFFER_COMPLETE`. -/
def GL_FRAMEBUFFER_COMPLETE : Nat := 0x8CD5

/-- WebGL enum value `FRAMEBUFFER_INCOMPLETE_ATTACHMENT`, used as the
status reported by the mock context for any incomplete framebuffer. -/
def GL_FRAMEBUFFER_INCOMPLETE_ATTACHMENT : Nat := 0x8CD6

/-- WebGL enum value `TEXTURE_WRAP_S`. -/
def GL_TEXTURE_WRAP_S : Nat := 0x2802

/-- WebGL enum value `TEXTURE_WRAP_T`. -/
def GL_TEXTURE_WRAP_T : Nat := 0x2803

/-- WebGL enum value `TEXTURE_MIN_FILTER`. -/
def GL_TEXTURE_MIN_FILTER : Nat := 0x2801

/-- WebGL enum value `TEXTURE_MAG_FILTER`. -/
def GL_TEXTURE_MAG_FILTER : Nat := 0x2800

/-- WebGL enum value `CLAMP_TO_EDGE`. -/
def GL_CLAMP_TO_EDGE : Nat := 0x812F

/-- WebGL enum value `LINEAR`. -/
def GL_LINEAR : Nat := 0x2601

/-- WebGL enum value `NEAREST`. -/
def GL_NEAREST : Nat := 0x2600

/-- WebGL enum value `COLOR_BUFFER_BIT`. -/
def GL_COLOR_BUFFER_BIT : Nat := 0x4000

/-- The three framebuffer binding points used by the code:
`FRAMEBUFFER`, `READ_FRAMEBUFFER`, `DRAW_FRAMEBUFFER`. -/
inductive FBTarget
  | framebuffer
  | read
  | draw
deriving DecidableEq

/-- One call issued to the WebGL context, as recorded in the mock
context's trace.  Arguments that the source always passes as fixed
enum constants (e.g. `TEXTURE_2D`, `RGBA`) are omitted. -/
inductive GLCall
  | createTexture (result : Option Nat)
  | bindTexture (t : Option Nat)
  | texImage2D (w h : Int)
  | texParameteri (p v : Nat)
  | createFramebuffer (result : Option Nat)
  | bindFramebuffer (tgt : FBTarget) (f : Option Nat)
  | framebufferTexture2D (t : Option Nat)
  | checkFramebufferStatus (result : Nat)
  | deleteTexture (t : Option Nat)
  | deleteFramebuffer (f : Option Nat)
  | getFramebufferBinding (result : Option Nat)
  | blitFramebuffer (sx0 sy0 sx1 sy1 dx0 dy0 dx1 dy1 : Int) (mask filterMode : Nat)
  | clearColor (r g b a : Rat)
  | clearBuffers (mask : Nat)
deriving DecidableEq

/-- The state of the (mock) WebGL rendering context: the current
bindings, the live GPU objects with their recorded attributes, the
failure-injection configuration, and the trace of calls issued so far
(oldest first).  `boundFramebuffer` is the `FRAMEBUFFER_BINDING` /
draw binding; binding to the `FRAMEBUFFER` point sets both it and the
read binding, as in WebGL2. -/
structure GLContext where
  isWebGL2 : Bool
  nextId : Nat
  boundFramebuffer : Option Nat
  boundReadFramebuffer : Option Nat
  boundTexture : Option Nat
  liveTextures : List Nat
  liveFramebuffers : List Nat
  texDims : List (Nat × (Int × Int))
  fbAttach : List (Nat × Option Nat)
  failTexture : Bool
  failFramebuffer : Bool
  forceIncomplete : Bool
  calls : List GLCall
deriving DecidableEq

/-- A fresh mock context with the given WebGL2 capability flag and
failure-injection configuration. -/
def GLContext.init (isW2 fT fF fI : Bool) : GLContext :=
  { isWebGL2 := isW2
    nextId := 0
    boundFramebuffer := none
    boundReadFramebuffer := none
    boundTexture := none
    liveTextures := []
    liveFramebuffers := []
    texDims := []
    fbAttach := []
    failTexture := fT
    failFramebuffer := fF
    forceIncomplete := fI
    calls := [] }

/-- `gl.createTexture()`: returns a fresh handle, or `null` when the
injected texture failure is enabled. -/
def GLContext.createTexture (gl : GLContext) : Option Nat × GLContext :=
  if gl.failTexture then
    (none, { gl with calls := gl.calls ++ [GLCall.createTexture none] })
  else
    (some gl.nextId,
     { gl with
         nextId := gl.nextId + 1
         liveTextures := gl.liveTextures ++ [gl.nextId]
         calls := gl.calls ++ [GLCall.createTexture (some gl.nextId)] })

/-- `gl.bindTexture(gl.TEXTURE_2D, t)`. -/
def GLContext.bindTexture (gl : GLContext) (t : Option Nat) : GLContext :=
  { gl with boundTexture := t, calls := gl.calls ++ [GLCall.bindTexture t] }

/-- `gl.texImage2D(gl.TEXTURE_2D, 0, gl.RGBA, w, h, 0, gl.RGBA,
gl.UNSIGNED_BYTE, null)`: records the allocated dimensions of the
currently bound texture. -/
def GLContext.texImage2D (gl : GLContext) (w h : Int) : GLContext :=
  { gl with
      texDims :=
        match gl.boundTexture with
        | some t => (t, (w, h)) :: gl.texDims
        | none => gl.texDims
      calls := gl.calls ++ [GLCall.texImage2D w h] }

/-- `gl.texParameteri(gl.TEXTURE_2D, p, v)`. -/
def GLContext.texParameteri (gl : GLContext) (p v : Nat) : GLContext :=
  { gl with calls := gl.calls ++ [GLCall.texParameteri p v] }

/-- `gl.createFramebuffer()`: returns a fresh handle, or `null` when
the injected framebuffer failure is enabled. -/
def GLContext.createFramebuffer (gl : GLContext) : Option Nat × GLContext :=
  if gl.failFramebuffer then
    (none, { gl with calls := gl.calls ++ [GLCall.createFramebuffer none] })
  else
    (some gl.nextId,
     { gl with
         nextId := gl.nextId + 1
         liveFramebuffers := gl.liveFramebuffers ++ [gl.nextId]
         calls := gl.calls ++ [GLCall.createFramebuffer (some gl.nextId)] })

/-- `gl.bindFramebuffer(tgt, f)`.  Binding the `FRAMEBUFFER` point sets
both the draw and read bindings (WebGL2 semantics). -/
def GLContext.bindFramebuffer (gl : GLContext) (tgt : FBTarget) (f : Option Nat) : GLContext :=
  match tgt with
  | FBTarget.framebuffer =>
    { gl with boundFramebuffer := f, boundReadFramebuffer := f
              calls := gl.calls ++ [GLCall.bindFramebuffer tgt f] }
  | FBTarget.draw =>
    { gl with boundFramebuffer := f
              calls := gl.calls ++ [GLCall.bindFramebuffer tgt f] }
  | FBTarget.read =>
    { gl with boundReadFramebuffer := f
              calls := gl.calls ++ [GLCall.bindFramebuffer tgt f] }

/-- `gl.framebufferTexture2D(gl.FRAMEBUFFER, gl.COLOR_ATTACHMENT0,
gl.TEXTURE_2D, t, 0)`: records `t` as the color attachment of the
currently bound framebuffer. -/
def GLContext.framebufferTexture2D (gl : GLContext) (t : Option Nat) : GLContext :=
  { gl with
      fbAttach :=
        match gl.boundFramebuffer with
        | some f => (f, t) :: gl.fbAttach
        | none => gl.fbAttach
      calls := gl.calls ++ [GLCall.framebufferTexture2D t] }

/-- The completeness status the mock context reports for the currently
bound framebuffer: complete when failure injection is off and a live
texture is attached; incomplete when `forceIncomplete` is set, when no
attachment exists, or when the attachment is `null` or deleted. -/
def GLContext.statusOf (gl : GLContext) : Nat :=
  if gl.forceIncomplete then GL_FRAMEBUFFER_INCOMPLETE_ATTACHMENT
  else
    match gl.boundFramebuffer with
    | none => GL_FRAMEBUFFER_COMPLETE
    | some f =>
      match gl.fbAttach.lookup f with
      | some (some t) =>
        if t ∈ gl.liveTextures then GL_FRAMEBUFFER_COMPLETE
        else GL_FRAMEBUFFER_INCOMPLETE_ATTACHMENT
      | _ => GL_FRAMEBUFFER_INCOMPLETE_ATTACHMENT

/-- `gl.checkFramebufferStatus(gl.FRAMEBUFFER)`. -/
def GLContext.checkFramebufferStatus (gl : GLContext) : Nat × GLContext :=
  (gl.statusOf,
   { gl with calls := gl.calls ++ [GLCall.checkFramebufferStatus gl.statusOf] })

/-- `gl.deleteTexture(t)`. -/
def GLContext.deleteTexture (gl : GLContext) (t : Option Nat) : GLContext :=
  { gl with
      liveTextures :=
        match t with
        | some x => gl.liveTextures.erase x
        | none => gl.liveTextures
      calls := gl.calls ++ [GLCall.deleteTexture t] }

/-- `gl.deleteFramebuffer(f)`. -/
def GLContext.deleteFramebuffer (gl : GLContext) (f : Option Nat) : GLContext :=
  { gl with
      liveFramebuffers :=
        match f with
        | some x => gl.liveFramebuffers.erase x
        | none => gl.liveFramebuffers
      calls := gl.calls ++ [GLCall.deleteFramebuffer f] }

/-- `gl.getParameter(gl.FRAMEBUFFER_BINDING)`. -/
def GLContext.getFramebufferBinding (gl : GLContext) : Option Nat × GLContext :=
  (gl.boundFramebuffer,
   { gl with calls := gl.calls ++ [GLCall.getFramebufferBinding gl.boundFramebuffer] })

/-- `gl.blitFramebuffer(...)`: pixel transfer is not modelled; the call
and its arguments are recorded in the trace. -/
def GLContext.blitFramebuffer (gl : GLContext)
    (sx0 sy0 sx1 sy1 dx0 dy0 dx1 dy1 : Int) (mask filterMode : Nat) : GLContext :=
  { gl with
      calls := gl.calls ++ [GLCall.blitFramebuffer sx0 sy0 sx1 sy1 dx0 dy0 dx1 dy1 mask filterMode] }

/-- `gl.clearColor(r, g, b, a)`. -/
def GLContext.clearColor (gl : GLContext) (r g b a : Rat) : GLContext :=
  { gl with calls := gl.calls ++ [GLCall.clearColor r g b a] }

/-- `gl.clear(mask)`. -/
def GLContext.clearBuffers (gl : GLContext) (mask : Nat) : GLContext :=
  { gl with calls := gl.calls ++ [GLCall.clearBuffers mask] }

/-- An error thrown by a method of the class: `nullContext` is the
JavaScript `TypeError` raised by a property access on the null `_gl`
field; `webgl2Required` is the `Error('WebGL2RenderingContext is
required for buffer copy.')` thrown by `copyBuffer`. -/
inductive RTError
  | nullContext
  | webgl2Required
deriving DecidableEq

/-- The instance fields of `CubismRenderTarget_WebGL`.  `glSet` models
whether the `_gl` field is non-null (there is a single ambient context,
so only null-ness of the stored reference is tracked); `colorBuffer`
is `_colorBuffer`, `renderTexture` is `_renderTexture`, `oldFbo` is
`_oldFbo`.  The chain-bookkeeping references `_parentOffscreenRenderTarget`
and `_oldOffscreen` play no part in the claims and are omitted. -/
structure CubismRenderTarget_WebGL where
  glSet : Bool
  colorBuffer : Option Nat
  renderTexture : Option Nat
  bufferWidth : Int
  bufferHeight : Int
  oldFbo : Option Nat
  offscreenIndex : Int
deriving DecidableEq

/-- The constructor: `_gl = null`, `_colorBuffer = null`,
`_renderTexture = null`, `_bufferWidth = 0`, `_bufferHeight = 0`,
`_oldFbo = null`, `_offscreenIndex = -1`. -/
def CubismRenderTarget_WebGL.init : CubismRenderTarget_WebGL :=
  { glSet := false
    colorBuffer := none
    renderTexture := none
    bufferWidth := 0
    bufferHeight := 0
    oldFbo := none
    offscreenIndex := -1 }

/-- `getRenderTexture()`. -/
def CubismRenderTarget_WebGL.getRenderTexture (rt : CubismRenderTarget_WebGL) : Option Nat :=
  rt.renderTexture

/-- `getColorBuffer()`. -/
def CubismRenderTarget_WebGL.getColorBuffer (rt : CubismRenderTarget_WebGL) : Option Nat :=
  rt.colorBuffer

/-- `getBufferWidth()`. -/
def CubismRenderTarget_WebGL.getBufferWidth (rt : CubismRenderTarget_WebGL) : Int :=
  rt.bufferWidth

/-- `getBufferHeight()`. -/
def CubismRenderTarget_WebGL.getBufferHeight (rt : CubismRenderTarget_WebGL) : Int :=
  rt.bufferHeight

/-- `getOldFBO()`. -/
def CubismRenderTarget_WebGL.getOldFBO (rt : CubismRenderTarget_WebGL) : Option Nat :=
  rt.oldFbo

/-- `isValid()`: `this._renderTexture != null`. -/
def CubismRenderTarget_WebGL.isValid (rt : CubismRenderTarget_WebGL) : Bool :=
  rt.renderTexture.isSome

/-- The second `if` of `destroyRenderTarget` (lines 192-196 of the
source): release the owned framebuffer, if any, through `this._gl`. -/
def CubismRenderTarget_WebGL.destroyFramebufferPart (gl : GLContext)
    (rt : CubismRenderTarget_WebGL) :
    GLContext × CubismRenderTarget_WebGL × Option RTError :=
  match rt.renderTexture with
  | some f =>
    if rt.glSet then
      ((gl.bindFramebuffer FBTarget.framebuffer none).deleteFramebuffer (some f),
       { rt with renderTexture := none }, none)
    else (gl, rt, some RTError.nullContext)
  | none => (gl, rt, none)

/-- `destroyRenderTarget()` (lines 185-197): release the owned texture
and then the owned framebuffer, each through `this._gl` — so each
branch throws a `TypeError` when a resource is owned but `_gl` is
null. -/
def CubismRenderTarget_WebGL.destroyRenderTarget (gl : GLContext)
    (rt : CubismRenderTarget_WebGL) :
    GLContext × CubismRenderTarget_WebGL × Option RTError :=
  match rt.colorBuffer with
  | some t =>
    if rt.glSet then
      CubismRenderTarget_WebGL.destroyFramebufferPart
        ((gl.bindTexture none).deleteTexture (some t))
        { rt with colorBuffer := none }
    else (gl, rt, some RTError.nullContext)
  | none => CubismRenderTarget_WebGL.destroyFramebufferPart gl rt

/-- Lines 122-179 of `createOffscreenRenderTarget`: everything after
the initial `this.destroyRenderTarget()` call.  Note the source's three
distinct failure behaviours: a null `createFramebuffer` result returns
`false` with no rollback at all; an incomplete status rebinds
`previousFramebuffer`, deletes the new framebuffer and calls
`destroyRenderTarget` (which throws when `_gl` is still null); only the
success branch assigns `_renderTexture`, the dimensions and `_gl`. -/
def CubismRenderTarget_WebGL.createOffscreenBody (gl : GLContext)
    (rt : CubismRenderTarget_WebGL)
    (displayBufferWidth displayBufferHeight : Int) (previousFramebuffer : Option Nat) :
    GLContext × CubismRenderTarget_WebGL × Option RTError × Bool :=
  match gl.createTexture with
  | (texQ, gl1) =>
    let rt1 := { rt with colorBuffer := texQ }
    let gl2 := gl1.bindTexture texQ
    let gl3 := gl2.texImage2D displayBufferWidth displayBufferHeight
    let gl4 := gl3.texParameteri GL_TEXTURE_WRAP_S GL_CLAMP_TO_EDGE
    let gl5 := gl4.texParameteri GL_TEXTURE_WRAP_T GL_CLAMP_TO_EDGE
    let gl6 := gl5.texParameteri GL_TEXTURE_MIN_FILTER GL_LINEAR
    let gl7 := gl6.texParameteri GL_TEXTURE_MAG_FILTER GL_LINEAR
    let gl8 := gl7.bindTexture none
    match gl8.createFramebuffer with
    | (none, gl9) => (gl9, rt1, none, false)
    | (some ret, gl9) =>
      let gl10 := gl9.bindFramebuffer FBTarget.framebuffer (some ret)
      let gl11 := gl10.framebufferTexture2D rt1.colorBuffer
      match gl11.checkFramebufferStatus with
      | (status, gl12) =>
        if status ≠ GL_FRAMEBUFFER_COMPLETE then
          let gl13 := gl12.bindFramebuffer FBTarget.framebuffer previousFramebuffer
          let gl14 := gl13.deleteFramebuffer (some ret)
          match CubismRenderTarget_WebGL.destroyRenderTarget gl14 rt1 with
          | (gl15, rt2, e) => (gl15, rt2, e, false)
        else
          (gl12,
           { rt1 with
               renderTexture := some ret
               bufferWidth := displayBufferWidth
               bufferHeight := displayBufferHeight
               glSet := true }, none, true)

/-- `createOffscreenRenderTarget(gl, displayBufferWidth,
displayBufferHeight, previousFramebuffer)` (lines 114-180): first
`this.destroyRenderTarget()` (propagating its `TypeError` when it
throws), then the allocation body. -/
def CubismRenderTarget_WebGL.createOffscreenRenderTarget (gl : GLContext)
    (rt : CubismRenderTarget_WebGL)
    (displayBufferWidth displayBufferHeight : Int) (previousFramebuffer : Option Nat) :
    GLContext × CubismRenderTarget_WebGL × Option RTError × Bool :=
  match CubismRenderTarget_WebGL.destroyRenderTarget gl rt with
  | (gl0, rt0, some e) => (gl0, rt0, some e, false)
  | (gl0, rt0, none) =>
    CubismRenderTarget_WebGL.createOffscreenBody gl0 rt0
      displayBufferWidth displayBufferHeight previousFramebuffer

/-- `beginDraw(restoreFbo = null)` (lines 65-79): early return when
`_renderTexture` is null; otherwise record the binding to restore
(querying the context when `restoreFbo` is null) and bind the own
framebuffer.  When `_renderTexture` is non-null but `_gl` is null the
source throws — at `getParameter` before assigning `_oldFbo` in the
null-`restoreFbo` branch, at `bindFramebuffer` after assigning it in
the other branch. -/
def CubismRenderTarget_WebGL.beginDraw (gl : GLContext)
    (rt : CubismRenderTarget_WebGL) (restoreFbo : Option Nat) :
    GLContext × CubismRenderTarget_WebGL × Option RTError :=
  match rt.renderTexture with
  | none => (gl, rt, none)
  | some _ =>
    match restoreFbo with
    | none =>
      if rt.glSet then
        match gl.getFramebufferBinding with
        | (b, gl1) =>
          let rt1 := { rt with oldFbo := b }
          (gl1.bindFramebuffer FBTarget.framebuffer rt1.renderTexture, rt1, none)
      else (gl, rt, some RTError.nullContext)
    | some f =>
      let rt1 := { rt with oldFbo := some f }
      if rt.glSet then
        (gl.bindFramebuffer FBTarget.framebuffer rt1.renderTexture, rt1, none)
      else (gl, rt1, some RTError.nullContext)

/-- `endDraw()` (lines 84-87): `this._gl.bindFramebuffer(FRAMEBUFFER,
this._oldFbo)` — throws a `TypeError` when `_gl` is null. -/
def CubismRenderTarget_WebGL.endDraw (gl : GLContext)
    (rt : CubismRenderTarget_WebGL) :
    GLContext × CubismRenderTarget_WebGL × Option RTError :=
  if rt.glSet then
    (gl.bindFramebuffer FBTarget.framebuffer rt.oldFbo, rt, none)
  else (gl, rt, some RTError.nullContext)

/-- `clear(r, g, b, a)` (lines 97-101): `clearColor` then `clear` on
`this._gl` — throws a `TypeError` when `_gl` is null. -/
def CubismRenderTarget_WebGL.clear (gl : GLContext)
    (rt : CubismRenderTarget_WebGL) (r g b a : Rat) :
    GLContext × CubismRenderTarget_WebGL × Option RTError :=
  if rt.glSet then
    ((gl.clearColor r g b a).clearBuffers GL_COLOR_BUFFER_BIT, rt, none)
  else (gl, rt, some RTError.nullContext)

/-- `static copyBuffer(gl, src, dst)` (lines 21-58): return when either
argument is null; throw when the context is not a
`WebGL2RenderingContext`; otherwise save the current binding, bind the
two framebuffers to the read/draw points, blit the full rectangles with
the color bit and nearest filtering, and restore the saved binding. -/
def CubismRenderTarget_WebGL.copyBuffer (gl : GLContext)
    (src dst : Option CubismRenderTarget_WebGL) : GLContext × Option RTError :=
  match src, dst with
  | some s, some d =>
    if gl.isWebGL2 then
      match gl.getFramebufferBinding with
      | (previousFramebuffer, gl1) =>
        let gl2 := gl1.bindFramebuffer FBTarget.read s.getRenderTexture
        let gl3 := gl2.bindFramebuffer FBTarget.draw d.getRenderTexture
        let gl4 := gl3.blitFramebuffer 0 0 s.getBufferWidth s.getBufferHeight
          0 0 d.getBufferWidth d.getBufferHeight GL_COLOR_BUFFER_BIT GL_NEAREST
        (gl4.bindFramebuffer FBTarget.framebuffer previousFramebuffer, none)
    else (gl, some RTError.webgl2Required)
  | _, _ => (gl, none)

/-- One operation on a single render target, for reasoning about
operation sequences. -/
inductive Op
  | allocOp (w h : Int) (prev : Option Nat)
  | beginOp (restore : Option Nat)
  | endOp
  | clearOp (r g b a : Rat)
  | destroyOp
deriving DecidableEq

/-- Apply one operation to the (context, target) pair. -/
def applyOp (gl : GLContext) (rt : CubismRenderTarget_WebGL) :
    Op → GLContext × CubismRenderTarget_WebGL × Option RTError
  | Op.allocOp w h p =>
    match CubismRenderTarget_WebGL.createOffscreenRenderTarget gl rt w h p with
    | (gl', rt', e, _) => (gl', rt', e)
  | Op.beginOp r => CubismRenderTarget_WebGL.beginDraw gl rt r
  | Op.endOp => CubismRenderTarget_WebGL.endDraw gl rt
  | Op.clearOp r g b a => CubismRenderTarget_WebGL.clear gl rt r g b a
  | Op.destroyOp => CubismRenderTarget_WebGL.destroyRenderTarget gl rt

/-- Run a sequence of operations, stopping at the first thrown error
(whose state at the throw point is returned). -/
def run (gl : GLContext) (rt : CubismRenderTarget_WebGL) :
    List Op → GLContext × CubismRenderTarget_WebGL × Option RTError
  | [] => (gl, rt, none)
  | op :: ops =>
    match applyOp gl rt op with
    | (gl', rt', none) => run gl' rt' ops
    | (gl', rt', some e) => (gl', rt', some e)

/-- The resource-consistency invariant of a (context, target) pair:
a target owning a framebuffer has a non-null stored context and owns a
color texture whose recorded allocation dimensions equal the stored
`bufferWidth`/`bufferHeight`; any owned texture handle is below the
context's id counter (freshness). -/
def RTInv (gl : GLContext) (rt : CubismRenderTarget_WebGL) : Prop :=
  (∀ f, rt.renderTexture = some f → rt.glSet = true) ∧
  (∀ f, rt.renderTexture = some f →
    ∃ t, rt.colorBuffer = some t ∧
      gl.texDims.lookup t = some (rt.bufferWidth, rt.bufferHeight)) ∧
  (∀ t, rt.colorBuffer = some t → t < gl.nextId)

/-- Whether a recorded call is a `blitFramebuffer` call. -/
def isBlitCall : GLCall → Bool
  | GLCall.blitFramebuffer _ _ _ _ _ _ _ _ _ _ => true
  | _ => false

/-- Number of blit calls in a trace. -/
def countBlit (l : List GLCall) : Nat := (l.filter isBlitCall).length


/-- Claim C10: `copyBuffer` with either argument absent returns
immediately with the context unchanged (zero context calls) and no
error — for every context, including one without WebGL2 blit support,
because the absence check precedes the capability check. -/
theorem c10_copyBuffer_absent_noop (gl : GLContext) :
    (∀ d, CubismRenderTarget_WebGL.copyBuffer gl none d = (gl, none)) ∧
    (∀ s, CubismRenderTarget_WebGL.copyBuffer gl s none = (gl, none)) := by
  constructor
  · intro d; cases d <;> rfl
  · intro s; cases s <;> rfl

/-- Claim C8: `copyBuffer` on a context without WebGL2 blit support,
with both targets present, raises the capability error and leaves the
context unchanged — in particular it performs no framebuffer binding
calls. -/
theorem c8_copyBuffer_capability_gate (gl : GLContext)
    (s d : CubismRenderTarget_WebGL) (h : gl.isWebGL2 = false) :
    CubismRenderTarget_WebGL.copyBuffer gl (some s) (some d) =
      (gl, some RTError.webgl2Required) := by
  simp [CubismRenderTarget_WebGL.copyBuffer, h]

/-- Witness for C8 at a concrete non-WebGL2 context. -/
theorem c8_copyBuffer_capability_gate_witness :
    (GLContext.init false false false false).isWebGL2 = false ∧
    CubismRenderTarget_WebGL.copyBuffer (GLContext.init false false false false)
      (some CubismRenderTarget_WebGL.init) (some CubismRenderTarget_WebGL.init) =
      (GLContext.init false false false false, some RTError.webgl2Required) :=
  ⟨rfl, c8_copyBuffer_capability_gate _ _ _ rfl⟩

/-- Claim C7: on a WebGL2 context with both targets present,
`copyBuffer` raises no error, issues exactly the trace: query the
binding, bind source/destination to the read/draw points, one blit of
the full source rectangle onto the full destination rectangle with the
color-buffer bit and nearest filtering, and rebind the queried binding;
afterwards the active framebuffer binding equals the binding queried at
entry, and the trace contains exactly one more blit than before. -/
theorem c7_copyBuffer_blit_geometry (gl : GLContext)
    (s d : CubismRenderTarget_WebGL) (h2 : gl.isWebGL2 = true) :
    (CubismRenderTarget_WebGL.copyBuffer gl (some s) (some d)).2 = none ∧
    (CubismRenderTarget_WebGL.copyBuffer gl (some s) (some d)).1.calls =
      gl.calls ++
        [GLCall.getFramebufferBinding gl.boundFramebuffer,
         GLCall.bindFramebuffer FBTarget.read s.getRenderTexture,
         GLCall.bindFramebuffer FBTarget.draw d.getRenderTexture,
         GLCall.blitFramebuffer 0 0 s.getBufferWidth s.getBufferHeight 0 0
           d.getBufferWidth d.getBufferHeight GL_COLOR_BUFFER_BIT GL_NEAREST,
         GLCall.bindFramebuffer FBTarget.framebuffer gl.boundFramebuffer] ∧
    (CubismRenderTarget_WebGL.copyBuffer gl (some s) (some d)).1.boundFramebuffer =
      gl.boundFramebuffer ∧
    countBlit (CubismRenderTarget_WebGL.copyBuffer gl (some s) (some d)).1.calls =
      countBlit gl.calls + 1 := by
  refine ⟨?_, ?_, ?_, ?_⟩ <;>
    simp [CubismRenderTarget_WebGL.copyBuffer, h2, GLContext.getFramebufferBinding,
      GLContext.bindFramebuffer, GLContext.blitFramebuffer, countBlit,
      List.filter_append, isBlitCall]

/-- Witness for C7 at a concrete WebGL2 context and two concrete
targets. -/
theorem c7_copyBuffer_blit_geometry_witness :
    (GLContext.init true false false false).isWebGL2 = true ∧
    ((CubismRenderTarget_WebGL.copyBuffer (GLContext.init true false false false)
        (some { CubismRenderTarget_WebGL.init with
                  renderTexture := some 4, bufferWidth := 2, bufferHeight := 3 })
        (some { CubismRenderTarget_WebGL.init with
                  renderTexture := some 5, bufferWidth := 6, bufferHeight := 7 })).2 = none ∧
     (CubismRenderTarget_WebGL.copyBuffer (GLContext.init true false false false)
        (some { CubismRenderTarget_WebGL.init with
                  renderTexture := some 4, bufferWidth := 2, bufferHeight := 3 })
        (some { CubismRenderTarget_WebGL.init with
                  renderTexture := some 5, bufferWidth := 6, bufferHeight := 7 })).1.calls =
      (GLContext.init true false false false).calls ++
        [GLCall.getFramebufferBinding (GLContext.init true false false false).boundFramebuffer,
         GLCall.bindFramebuffer FBTarget.read
           ({ CubismRenderTarget_WebGL.init with
                renderTexture := some 4, bufferWidth := 2, bufferHeight := 3 } :
              CubismRenderTarget_WebGL).getRenderTexture,
         GLCall.bindFramebuffer FBTarget.draw
           ({ CubismRenderTarget_WebGL.init with
                renderTexture := some 5, bufferWidth := 6, bufferHeight := 7 } :
              CubismRenderTarget_WebGL).getRenderTexture,
         GLCall.blitFramebuffer 0 0
           ({ CubismRenderTarget_WebGL.init with
                renderTexture := some 4, bufferWidth := 2, bufferHeight := 3 } :
              CubismRenderTarget_WebGL).getBufferWidth
           ({ CubismRenderTarget_WebGL.init with
                renderTexture := some 4, bufferWidth := 2, bufferHeight := 3 } :
              CubismRenderTarget_WebGL).getBufferHeight 0 0
           ({ CubismRenderTarget_WebGL.init with
                renderTexture := some 5, bufferWidth := 6, bufferHeight := 7 } :
              CubismRenderTarget_WebGL).getBufferWidth
           ({ CubismRenderTarget_WebGL.init with
                renderTexture := some 5, bufferWidth := 6, bufferHeight := 7 } :
              CubismRenderTarget_WebGL).getBufferHeight GL_COLOR_BUFFER_BIT GL_NEAREST,
         GLCall.bindFramebuffer FBTarget.framebuffer
           (GLContext.init true false false false).boundFramebuffer] ∧
     (CubismRenderTarget_WebGL.copyBuffer (GLContext.init true false false false)
        (some { CubismRenderTarget_WebGL.init with
                  renderTexture := some 4, bufferWidth := 2, bufferHeight := 3 })
        (some { CubismRenderTarget_WebGL.init with
                  renderTexture := some 5, bufferWidth := 6, bufferHeight := 7 })).1.boundFramebuffer =
      (GLContext.init true false false false).boundFramebuffer ∧
     countBlit (CubismRenderTarget_WebGL.copyBuffer (GLContext.init true false false false)
        (some { CubismRenderTarget_WebGL.init with
                  renderTexture := some 4, bufferWidth := 2, bufferHeight := 3 })
        (some { CubismRenderTarget_WebGL.init with
                  renderTexture := some 5, bufferWidth := 6, bufferHeight := 7 })).1.calls =
      countBlit (GLContext.init true false false false).calls + 1) :=
  ⟨rfl, c7_copyBuffer_blit_geometry _ _ _ rfl⟩

/-- Claim C4: for two valid targets `A` and `B` with non-null stored
contexts, the sequence `A.beginDraw(); B.beginDraw(); B.endDraw();
A.endDraw()` (no `restoreFbo` supplied) throws nothing and leaves the
bound framebuffer equal to the binding `F` active before
`A.beginDraw()` — the nesting round-trips through each target's own
`_oldFbo`. -/
theorem c4_nested_begin_end (gl : GLContext) (A B : CubismRenderTarget_WebGL)
    (fa fb : Nat) (hA : A.renderTexture = some fa) (hAg : A.glSet = true)
    (hB : B.renderTexture = some fb) (hBg : B.glSet = true) :
    (let s1 := CubismRenderTarget_WebGL.beginDraw gl A none
     let s2 := CubismRenderTarget_WebGL.beginDraw s1.1 B none
     let s3 := CubismRenderTarget_WebGL.endDraw s2.1 s2.2.1
     let s4 := CubismRenderTarget_WebGL.endDraw s3.1 s1.2.1
     s1.2.2 = none ∧ s2.2.2 = none ∧ s3.2.2 = none ∧ s4.2.2 = none ∧
       s4.1.boundFramebuffer = gl.boundFramebuffer) := by
  simp [CubismRenderTarget_WebGL.beginDraw, CubismRenderTarget_WebGL.endDraw,
    GLContext.getFramebufferBinding, GLContext.bindFramebuffer, hA, hAg, hB, hBg]

/-- Witness for C4 at a concrete context (binding `some 9`) and two
concrete valid targets. -/
theorem c4_nested_begin_end_witness :
    (({ GLContext.init false false false false with boundFramebuffer := some 9 } :
        GLContext).boundFramebuffer = some 9) ∧
    (let gl : GLContext :=
      { GLContext.init false false false false with boundFramebuffer := some 9 }
     let A : CubismRenderTarget_WebGL :=
      { glSet := true, colorBuffer := some 10, renderTexture := some 11,
        bufferWidth := 2, bufferHeight := 2, oldFbo := none, offscreenIndex := -1 }
     let B : CubismRenderTarget_WebGL :=
      { glSet := true, colorBuffer := some 20, renderTexture := some 21,
        bufferWidth := 4, bufferHeight := 4, oldFbo := none, offscreenIndex := -1 }
     let s1 := CubismRenderTarget_WebGL.beginDraw gl A none
     let s2 := CubismRenderTarget_WebGL.beginDraw s1.1 B none
     let s3 := CubismRenderTarget_WebGL.endDraw s2.1 s2.2.1
     let s4 := CubismRenderTarget_WebGL.endDraw s3.1 s1.2.1
     s1.2.2 = none ∧ s2.2.2 = none ∧ s3.2.2 = none ∧ s4.2.2 = none ∧
       s4.1.boundFramebuffer = gl.boundFramebuffer) :=
  ⟨rfl, c4_nested_begin_end _ _ _ 11 21 rfl rfl rfl rfl⟩

/-- Counterexample to claim C5 as stated: on a freshly constructed
target (no owned framebuffer, so an invalid target) `endDraw` throws
the `TypeError` from the null `_gl` dereference instead of returning
silently. -/
theorem c5_counterexample :
    CubismRenderTarget_WebGL.init.renderTexture = none ∧
    (CubismRenderTarget_WebGL.endDraw (GLContext.init false false false false)
        CubismRenderTarget_WebGL.init).2.2 = some RTError.nullContext :=
  ⟨rfl, rfl⟩

/-- Claim C5 (amended): on an invalid target `beginDraw` is a true
no-op (no throw, no context call, no state change, any `restoreFbo`),
but `endDraw` is not guarded by validity: it throws when the stored
context is null, and otherwise issues the rebinding of `_oldFbo`. -/
theorem c5_invalid_target_amended (gl : GLContext) (rt : CubismRenderTarget_WebGL)
    (restore : Option Nat) (hinv : rt.renderTexture = none) :
    CubismRenderTarget_WebGL.beginDraw gl rt restore = (gl, rt, none) ∧
    (rt.glSet = false →
      (CubismRenderTarget_WebGL.endDraw gl rt).2.2 = some RTError.nullContext) ∧
    (rt.glSet = true →
      CubismRenderTarget_WebGL.endDraw gl rt =
        (gl.bindFramebuffer FBTarget.framebuffer rt.oldFbo, rt, none)) := by
  refine ⟨?_, ?_, ?_⟩
  · simp [CubismRenderTarget_WebGL.beginDraw, hinv]
  · intro h; simp [CubismRenderTarget_WebGL.endDraw, h]
  · intro h; simp [CubismRenderTarget_WebGL.endDraw, h]

/-- Witness for the amended C5 at a freshly constructed target. -/
theorem c5_invalid_target_amended_witness :
    CubismRenderTarget_WebGL.init.renderTexture = none ∧
    (CubismRenderTarget_WebGL.beginDraw (GLContext.init false false false false)
        CubismRenderTarget_WebGL.init none =
      (GLContext.init false false false false, CubismRenderTarget_WebGL.init, none) ∧
     (CubismRenderTarget_WebGL.init.glSet = false →
       (CubismRenderTarget_WebGL.endDraw (GLContext.init false false false false)
          CubismRenderTarget_WebGL.init).2.2 = some RTError.nullContext) ∧
     (CubismRenderTarget_WebGL.init.glSet = true →
       CubismRenderTarget_WebGL.endDraw (GLContext.init false false false false)
          CubismRenderTarget_WebGL.init =
        ((GLContext.init false false false false).bindFramebuffer FBTarget.framebuffer
            CubismRenderTarget_WebGL.init.oldFbo,
          CubismRenderTarget_WebGL.init, none))) :=
  ⟨rfl, c5_invalid_target_amended _ _ _ rfl⟩

/-- Counterexample to claim C6 as stated: on a freshly constructed
(invalid) target, whose `_gl` is still null, `endDraw` throws instead
of rebinding `_oldFbo`: with the context bound to `some 3` the binding
stays `some 3`, different from the target's saved binding `none`. -/
theorem c6_counterexample :
    (CubismRenderTarget_WebGL.endDraw
        { GLContext.init false false false false with boundFramebuffer := some 3 }
        CubismRenderTarget_WebGL.init).2.2 = some RTError.nullContext ∧
    (CubismRenderTarget_WebGL.endDraw
        { GLContext.init false false false false with boundFramebuffer := some 3 }
        CubismRenderTarget_WebGL.init).1.boundFramebuffer ≠
      CubismRenderTarget_WebGL.init.oldFbo := by
  exact ⟨rfl, by decide⟩

/-- Claim C6 (amended): for every target whose stored context is
non-null — in particular any target that has ever allocated
successfully — `endDraw` unconditionally rebinds `_oldFbo` as the
active framebuffer, even when the target is invalid; with a null
stored context it throws instead. -/
theorem c6_endDraw_restores_amended (gl : GLContext)
    (rt : CubismRenderTarget_WebGL) (hg : rt.glSet = true) :
    CubismRenderTarget_WebGL.endDraw gl rt =
      (gl.bindFramebuffer FBTarget.framebuffer rt.oldFbo, rt, none) ∧
    (gl.bindFramebuffer FBTarget.framebuffer rt.oldFbo).boundFramebuffer = rt.oldFbo := by
  simp [CubismRenderTarget_WebGL.endDraw, hg, GLContext.bindFramebuffer]

/-- Witness for the amended C6 at a concrete invalid target with a
stored context. -/
theorem c6_endDraw_restores_amended_witness :
    ({ CubismRenderTarget_WebGL.init with glSet := true, oldFbo := some 5 } :
        CubismRenderTarget_WebGL).glSet = true ∧
    (CubismRenderTarget_WebGL.endDraw (GLContext.init false false false false)
        { CubismRenderTarget_WebGL.init with glSet := true, oldFbo := some 5 } =
      ((GLContext.init false false false false).bindFramebuffer FBTarget.framebuffer
          (some 5),
        { CubismRenderTarget_WebGL.init with glSet := true, oldFbo := some 5 }, none) ∧
     ((GLContext.init false false false false).bindFramebuffer FBTarget.framebuffer
          (some 5)).boundFramebuffer = some 5) :=
  ⟨rfl, c6_endDraw_restores_amended _ _ rfl⟩

/-- Counterexample to claim C1 as stated: with framebuffer creation
failing (and texture creation succeeding), `allocate` returns false
without throwing, but the context's binding is left unchanged (not
rebound to the `previousBinding` argument `some 7`) and the
just-created color texture is retained by the target, not released. -/
theorem c1_counterexample :
    (CubismRenderTarget_WebGL.createOffscreenRenderTarget
        (GLContext.init false false true false) CubismRenderTarget_WebGL.init
        2 3 (some 7)).2.2.2 = false ∧
    (CubismRenderTarget_WebGL.createOffscreenRenderTarget
        (GLContext.init false false true false) CubismRenderTarget_WebGL.init
        2 3 (some 7)).2.2.1 = none ∧
    (CubismRenderTarget_WebGL.createOffscreenRenderTarget
        (GLContext.init false false true false) CubismRenderTarget_WebGL.init
        2 3 (some 7)).1.boundFramebuffer ≠ some 7 ∧
    (CubismRenderTarget_WebGL.createOffscreenRenderTarget
        (GLContext.init false false true false) CubismRenderTarget_WebGL.init
        2 3 (some 7)).2.1.getColorBuffer ≠ none := by
  refine ⟨rfl, rfl, by decide, by decide⟩

/-- Counterexample to claim C2 as stated: after a single `allocate`
call on a fresh target with framebuffer creation failing, the target
is in neither of the claim's two allowed states — it owns a color
texture but no framebuffer. -/
theorem c2_counterexample :
    ¬((run (GLContext.init false false true false) CubismRenderTarget_WebGL.init
        [Op.allocOp 2 3 none]).2.1.colorBuffer = none ∧
      (run (GLContext.init false false true false) CubismRenderTarget_WebGL.init
        [Op.allocOp 2 3 none]).2.1.renderTexture = none) ∧
    ¬((run (GLContext.init false false true false) CubismRenderTarget_WebGL.init
        [Op.allocOp 2 3 none]).2.1.colorBuffer.isSome = true ∧
      (run (GLContext.init false false true false) CubismRenderTarget_WebGL.init
        [Op.allocOp 2 3 none]).2.1.renderTexture.isSome = true) := by
  decide

/-- Counterexample to claim C9 as stated: after a framebuffer-creation
failure the target owns texture `0` (and no stored context); the
second `allocate` then throws the null-`_gl` `TypeError` without ever
deleting texture `0`, which stays live — repeated allocation leaks it
rather than destroying it before creating new resources. -/
theorem c9_counterexample :
    (CubismRenderTarget_WebGL.createOffscreenRenderTarget
        (GLContext.init false false true false) CubismRenderTarget_WebGL.init
        2 3 none).2.1.getColorBuffer = some 0 ∧
    (CubismRenderTarget_WebGL.createOffscreenRenderTarget
      (CubismRenderTarget_WebGL.createOffscreenRenderTarget
        (GLContext.init false false true false) CubismRenderTarget_WebGL.init
        2 3 none).1
      (CubismRenderTarget_WebGL.createOffscreenRenderTarget
        (GLContext.init false false true false) CubismRenderTarget_WebGL.init
        2 3 none).2.1 2 3 none).2.2.1 = some RTError.nullContext ∧
    GLCall.deleteTexture (some 0) ∉
      (CubismRenderTarget_WebGL.createOffscreenRenderTarget
        (CubismRenderTarget_WebGL.createOffscreenRenderTarget
          (GLContext.init false false true false) CubismRenderTarget_WebGL.init
          2 3 none).1
        (CubismRenderTarget_WebGL.createOffscreenRenderTarget
          (GLContext.init false false true false) CubismRenderTarget_WebGL.init
          2 3 none).2.1 2 3 none).1.calls ∧
    0 ∈ (CubismRenderTarget_WebGL.createOffscreenRenderTarget
        (CubismRenderTarget_WebGL.createOffscreenRenderTarget
          (GLContext.init false false true false) CubismRenderTarget_WebGL.init
          2 3 none).1
        (CubismRenderTarget_WebGL.createOffscreenRenderTarget
          (GLContext.init false false true false) CubismRenderTarget_WebGL.init
          2 3 none).2.1 2 3 none).1.liveTextures := by
  decide

/-- `destroyRenderTarget` never throws when the stored context is
non-null. -/
theorem destroy_glSet_no_error (gl : GLContext) (rt : CubismRenderTarget_WebGL)
    (hg : rt.glSet = true) :
    (CubismRenderTarget_WebGL.destroyRenderTarget gl rt).2.2 = none := by
  rcases hc : rt.colorBuffer with _ | t <;> rcases hr : rt.renderTexture with _ | f <;>
    simp [CubismRenderTarget_WebGL.destroyRenderTarget,
      CubismRenderTarget_WebGL.destroyFramebufferPart, hc, hr, hg]

/-- When `destroyRenderTarget` returns normally, the target retains no
resources and keeps its other fields, and the context keeps its id
counter, texture-dimension records and configuration. -/
theorem destroy_ok_fields (gl : GLContext) (rt : CubismRenderTarget_WebGL)
    (h : (CubismRenderTarget_WebGL.destroyRenderTarget gl rt).2.2 = none) :
    (CubismRenderTarget_WebGL.destroyRenderTarget gl rt).2.1.colorBuffer = none ∧
    (CubismRenderTarget_WebGL.destroyRenderTarget gl rt).2.1.renderTexture = none ∧
    (CubismRenderTarget_WebGL.destroyRenderTarget gl rt).2.1.glSet = rt.glSet ∧
    (CubismRenderTarget_WebGL.destroyRenderTarget gl rt).1.texDims = gl.texDims ∧
    (CubismRenderTarget_WebGL.destroyRenderTarget gl rt).1.nextId = gl.nextId ∧
    (CubismRenderTarget_WebGL.destroyRenderTarget gl rt).1.failTexture = gl.failTexture ∧
    (CubismRenderTarget_WebGL.destroyRenderTarget gl rt).1.failFramebuffer = gl.failFramebuffer ∧
    (CubismRenderTarget_WebGL.destroyRenderTarget gl rt).1.forceIncomplete = gl.forceIncomplete := by
  rcases hc : rt.colorBuffer with _ | t <;> rcases hg : rt.glSet <;>
    rcases hr : rt.renderTexture with _ | f <;>
    simp_all [CubismRenderTarget_WebGL.destroyRenderTarget,
      CubismRenderTarget_WebGL.destroyFramebufferPart,
      GLContext.bindTexture, GLContext.deleteTexture,
      GLContext.bindFramebuffer, GLContext.deleteFramebuffer]

/-- When `destroyRenderTarget` throws, nothing was mutated: the state
at the throw point is the input state. -/
theorem destroy_err_eq (gl : GLContext) (rt : CubismRenderTarget_WebGL) (e : RTError)
    (h : (CubismRenderTarget_WebGL.destroyRenderTarget gl rt).2.2 = some e) :
    CubismRenderTarget_WebGL.destroyRenderTarget gl rt = (gl, rt, some e) := by
  rcases hc : rt.colorBuffer with _ | t <;> rcases hg : rt.glSet <;>
    rcases hr : rt.renderTexture with _ | f <;>
    simp_all [CubismRenderTarget_WebGL.destroyRenderTarget,
      CubismRenderTarget_WebGL.destroyFramebufferPart,
      GLContext.bindTexture, GLContext.deleteTexture,
      GLContext.bindFramebuffer, GLContext.deleteFramebuffer]

/-- The allocation body (after the initial destroy) on a context whose
`createFramebuffer` succeeds but whose completeness check fails —
either forced, or because texture creation failed so the attachment is
null — on a resource-free target with a non-null stored context:
returns false without throwing, rebinds `previousFramebuffer`, and
retains no resources. -/
theorem body_completeness_failure (gl : GLContext) (rt : CubismRenderTarget_WebGL)
    (w h : Int) (prev : Option Nat)
    (hff : gl.failFramebuffer = false)
    (hfail : gl.forceIncomplete = true ∨ gl.failTexture = true)
    (hg : rt.glSet = true) (hr : rt.renderTexture = none) :
    (CubismRenderTarget_WebGL.createOffscreenBody gl rt w h prev).2.2.2 = false ∧
    (CubismRenderTarget_WebGL.createOffscreenBody gl rt w h prev).2.2.1 = none ∧
    (CubismRenderTarget_WebGL.createOffscreenBody gl rt w h prev).1.boundFramebuffer = prev ∧
    (CubismRenderTarget_WebGL.createOffscreenBody gl rt w h prev).2.1.colorBuffer = none ∧
    (CubismRenderTarget_WebGL.createOffscreenBody gl rt w h prev).2.1.renderTexture = none := by
  rcases hft : gl.failTexture <;> rcases hfi : gl.forceIncomplete <;>
    simp_all [CubismRenderTarget_WebGL.createOffscreenBody, GLContext.createTexture,
      GLContext.bindTexture, GLContext.texImage2D, GLContext.texParameteri,
      GLContext.createFramebuffer, GLContext.bindFramebuffer,
      GLContext.framebufferTexture2D, GLContext.checkFramebufferStatus,
      GLContext.statusOf, GLContext.deleteFramebuffer, GLContext.deleteTexture,
      CubismRenderTarget_WebGL.destroyRenderTarget,
      CubismRenderTarget_WebGL.destroyFramebufferPart,
      GL_FRAMEBUFFER_COMPLETE, GL_FRAMEBUFFER_INCOMPLETE_ATTACHMENT, List.lookup]

/-- Claim C9 (amended): on a target owning a texture and a framebuffer
with a non-null stored context — the state a successful `allocate`
produces — a second `allocate` first runs the destroy, which issues
exactly the four calls deleting the owned texture and framebuffer, and
only then runs the creation body on the post-destroy state; so the old
resources are destroyed before any new ones are created.  (A target
left owning only a texture by a framebuffer-creation failure before
any success instead throws on re-allocation without releasing it; see
the counterexample.) -/
theorem c9_realloc_destroys_first_amended (gl : GLContext)
    (rt : CubismRenderTarget_WebGL) (w h : Int) (prev : Option Nat) (t f : Nat)
    (hg : rt.glSet = true) (hc : rt.colorBuffer = some t)
    (hr : rt.renderTexture = some f) :
    CubismRenderTarget_WebGL.destroyRenderTarget gl rt =
      ((((gl.bindTexture none).deleteTexture (some t)).bindFramebuffer
          FBTarget.framebuffer none).deleteFramebuffer (some f),
       { rt with colorBuffer := none, renderTexture := none }, none) ∧
    ((((gl.bindTexture none).deleteTexture (some t)).bindFramebuffer
          FBTarget.framebuffer none).deleteFramebuffer (some f)).calls =
      gl.calls ++ [GLCall.bindTexture none, GLCall.deleteTexture (some t),
        GLCall.bindFramebuffer FBTarget.framebuffer none,
        GLCall.deleteFramebuffer (some f)] ∧
    CubismRenderTarget_WebGL.createOffscreenRenderTarget gl rt w h prev =
      CubismRenderTarget_WebGL.createOffscreenBody
        ((((gl.bindTexture none).deleteTexture (some t)).bindFramebuffer
            FBTarget.framebuffer none).deleteFramebuffer (some f))
        { rt with colorBuffer := none, renderTexture := none } w h prev := by
  have hdes : CubismRenderTarget_WebGL.destroyRenderTarget gl rt =
      ((((gl.bindTexture none).deleteTexture (some t)).bindFramebuffer
          FBTarget.framebuffer none).deleteFramebuffer (some f),
       { rt with colorBuffer := none, renderTexture := none }, none) := by
    simp [CubismRenderTarget_WebGL.destroyRenderTarget,
      CubismRenderTarget_WebGL.destroyFramebufferPart, hc, hr, hg]
  refine ⟨hdes, ?_, ?_⟩
  · simp [GLContext.bindTexture, GLContext.deleteTexture,
      GLContext.bindFramebuffer, GLContext.deleteFramebuffer]
  · simp [CubismRenderTarget_WebGL.createOffscreenRenderTarget, hdes]

/-- Witness for the amended C9 at a concrete owning target. -/
theorem c9_realloc_destroys_first_amended_witness :
    ({ glSet := true, colorBuffer := some 5, renderTexture := some 6,
       bufferWidth := 2, bufferHeight := 3, oldFbo := none, offscreenIndex := -1 } :
        CubismRenderTarget_WebGL).glSet = true ∧
    (CubismRenderTarget_WebGL.destroyRenderTarget (GLContext.init false false false false)
        { glSet := true, colorBuffer := some 5, renderTexture := some 6,
          bufferWidth := 2, bufferHeight := 3, oldFbo := none, offscreenIndex := -1 } =
      (((((GLContext.init false false false false).bindTexture none).deleteTexture
            (some 5)).bindFramebuffer FBTarget.framebuffer none).deleteFramebuffer (some 6),
       { ({ glSet := true, colorBuffer := some 5, renderTexture := some 6,
            bufferWidth := 2, bufferHeight := 3, oldFbo := none, offscreenIndex := -1 } :
            CubismRenderTarget_WebGL) with
           colorBuffer := none, renderTexture := none }, none) ∧
     (((((GLContext.init false false false false).bindTexture none).deleteTexture
            (some 5)).bindFramebuffer FBTarget.framebuffer none).deleteFramebuffer (some 6)).calls =
      (GLContext.init false false false false).calls ++
        [GLCall.bindTexture none, GLCall.deleteTexture (some 5),
         GLCall.bindFramebuffer FBTarget.framebuffer none,
         GLCall.deleteFramebuffer (some 6)] ∧
     CubismRenderTarget_WebGL.createOffscreenRenderTarget
        (GLContext.init false false false false)
        { glSet := true, colorBuffer := some 5, renderTexture := some 6,
          bufferWidth := 2, bufferHeight := 3, oldFbo := none, offscreenIndex := -1 }
        2 3 (some 7) =
      CubismRenderTarget_WebGL.createOffscreenBody
        (((((GLContext.init false false false false).bindTexture none).deleteTexture
            (some 5)).bindFramebuffer FBTarget.framebuffer none).deleteFramebuffer (some 6))
        { ({ glSet := true, colorBuffer := some 5, renderTexture := some 6,
             bufferWidth := 2, bufferHeight := 3, oldFbo := none, offscreenIndex := -1 } :
             CubismRenderTarget_WebGL) with
            colorBuffer := none, renderTexture := none } 2 3 (some 7)) :=
  ⟨rfl, c9_realloc_destroys_first_amended _ _ 2 3 (some 7) 5 6 rfl rfl rfl⟩


/-- `destroyRenderTarget` on a target owning nothing returns the state
unchanged: no context calls, no state change, no error. -/
theorem destroy_noop (gl : GLContext) (rt : CubismRenderTarget_WebGL)
    (hc : rt.colorBuffer = none) (hr : rt.renderTexture = none) :
    CubismRenderTarget_WebGL.destroyRenderTarget gl rt = (gl, rt, none) := by
  simp [CubismRenderTarget_WebGL.destroyRenderTarget,
    CubismRenderTarget_WebGL.destroyFramebufferPart, hc, hr]

/-- When the allocation body reports success, the produced target has a
non-null stored context, owns a framebuffer, and stores the requested
dimensions. -/
theorem body_success (gl : GLContext) (rt : CubismRenderTarget_WebGL)
    (w h : Int) (prev : Option Nat)
    (hs : (CubismRenderTarget_WebGL.createOffscreenBody gl rt w h prev).2.2.2 = true) :
    (CubismRenderTarget_WebGL.createOffscreenBody gl rt w h prev).2.1.glSet = true ∧
    (CubismRenderTarget_WebGL.createOffscreenBody gl rt w h prev).2.1.renderTexture.isSome = true ∧
    (CubismRenderTarget_WebGL.createOffscreenBody gl rt w h prev).2.1.bufferWidth = w ∧
    (CubismRenderTarget_WebGL.createOffscreenBody gl rt w h prev).2.1.bufferHeight = h := by
  cases hft : gl.failTexture <;> cases hff : gl.failFramebuffer <;>
    cases hfi : gl.forceIncomplete <;>
    simp_all [CubismRenderTarget_WebGL.createOffscreenBody, GLContext.createTexture,
      GLContext.bindTexture, GLContext.texImage2D, GLContext.texParameteri,
      GLContext.createFramebuffer, GLContext.bindFramebuffer,
      GLContext.framebufferTexture2D, GLContext.checkFramebufferStatus,
      GLContext.statusOf, GLContext.deleteFramebuffer, GLContext.deleteTexture,
      CubismRenderTarget_WebGL.destroyRenderTarget,
      CubismRenderTarget_WebGL.destroyFramebufferPart,
      GL_FRAMEBUFFER_COMPLETE, GL_FRAMEBUFFER_INCOMPLETE_ATTACHMENT, List.lookup]

/-- Claim C3: if `allocate(ctx, w, h, prev)` returns true (for positive
`w`, `h`), the target is valid with `getBufferWidth() = w` and
`getBufferHeight() = h`; a subsequent `destroy()` returns normally and
leaves the target invalid; and a second `destroy()` immediately after
returns the state entirely unchanged — no context calls, no state
change. -/
theorem c3_allocate_destroy_round_trip (gl : GLContext)
    (rt : CubismRenderTarget_WebGL) (w h : Int) (prev : Option Nat)
    (hw : 0 < w) (hh : 0 < h)
    (hsucc : (CubismRenderTarget_WebGL.createOffscreenRenderTarget gl rt w h prev).2.2.2 = true) :
    (CubismRenderTarget_WebGL.createOffscreenRenderTarget gl rt w h prev).2.1.isValid = true ∧
    (CubismRenderTarget_WebGL.createOffscreenRenderTarget gl rt w h prev).2.1.getBufferWidth = w ∧
    (CubismRenderTarget_WebGL.createOffscreenRenderTarget gl rt w h prev).2.1.getBufferHeight = h ∧
    (CubismRenderTarget_WebGL.destroyRenderTarget
        (CubismRenderTarget_WebGL.createOffscreenRenderTarget gl rt w h prev).1
        (CubismRenderTarget_WebGL.createOffscreenRenderTarget gl rt w h prev).2.1).2.2 = none ∧
    (CubismRenderTarget_WebGL.destroyRenderTarget
        (CubismRenderTarget_WebGL.createOffscreenRenderTarget gl rt w h prev).1
        (CubismRenderTarget_WebGL.createOffscreenRenderTarget gl rt w h prev).2.1).2.1.isValid = false ∧
    CubismRenderTarget_WebGL.destroyRenderTarget
        (CubismRenderTarget_WebGL.destroyRenderTarget
          (CubismRenderTarget_WebGL.createOffscreenRenderTarget gl rt w h prev).1
          (CubismRenderTarget_WebGL.createOffscreenRenderTarget gl rt w h prev).2.1).1
        (CubismRenderTarget_WebGL.destroyRenderTarget
          (CubismRenderTarget_WebGL.createOffscreenRenderTarget gl rt w h prev).1
          (CubismRenderTarget_WebGL.createOffscreenRenderTarget gl rt w h prev).2.1).2.1 =
      ((CubismRenderTarget_WebGL.destroyRenderTarget
          (CubismRenderTarget_WebGL.createOffscreenRenderTarget gl rt w h prev).1
          (CubismRenderTarget_WebGL.createOffscreenRenderTarget gl rt w h prev).2.1).1,
       (CubismRenderTarget_WebGL.destroyRenderTarget
          (CubismRenderTarget_WebGL.createOffscreenRenderTarget gl rt w h prev).1
          (CubismRenderTarget_WebGL.createOffscreenRenderTarget gl rt w h prev).2.1).2.1,
       none) := by
  rcases hd : CubismRenderTarget_WebGL.destroyRenderTarget gl rt with ⟨gld, rtd, ed⟩
  rcases ed with _ | e
  · have hred : CubismRenderTarget_WebGL.createOffscreenRenderTarget gl rt w h prev =
        CubismRenderTarget_WebGL.createOffscreenBody gld rtd w h prev := by
      simp [CubismRenderTarget_WebGL.createOffscreenRenderTarget, hd]
    rw [hred] at hsucc ⊢
    have hb := body_success gld rtd w h prev hsucc
    have hd1e := destroy_glSet_no_error
      (CubismRenderTarget_WebGL.createOffscreenBody gld rtd w h prev).1
      (CubismRenderTarget_WebGL.createOffscreenBody gld rtd w h prev).2.1 hb.1
    have hd1f := destroy_ok_fields
      (CubismRenderTarget_WebGL.createOffscreenBody gld rtd w h prev).1
      (CubismRenderTarget_WebGL.createOffscreenBody gld rtd w h prev).2.1 hd1e
    refine ⟨?_, hb.2.2.1, hb.2.2.2, hd1e, ?_, ?_⟩
    · simp [CubismRenderTarget_WebGL.isValid, hb.2.1]
    · simp [CubismRenderTarget_WebGL.isValid, hd1f.2.1]
    · exact destroy_noop _ _ hd1f.1 hd1f.2.1
  · rw [CubismRenderTarget_WebGL.createOffscreenRenderTarget, hd] at hsucc
    simp at hsucc

/-- Witness for C3 at a concrete context with no failure injection. -/
theorem c3_allocate_destroy_round_trip_witness :
    (0 : Int) < 2 ∧ (0 : Int) < 3 ∧
    (CubismRenderTarget_WebGL.createOffscreenRenderTarget
      (GLContext.init false false false false) CubismRenderTarget_WebGL.init
      2 3 none).2.2.2 = true ∧
    ((CubismRenderTarget_WebGL.createOffscreenRenderTarget
        (GLContext.init false false false false) CubismRenderTarget_WebGL.init
        2 3 none).2.1.isValid = true ∧
     (CubismRenderTarget_WebGL.createOffscreenRenderTarget
        (GLContext.init false false false false) CubismRenderTarget_WebGL.init
        2 3 none).2.1.getBufferWidth = 2 ∧
     (CubismRenderTarget_WebGL.createOffscreenRenderTarget
        (GLContext.init false false false false) CubismRenderTarget_WebGL.init
        2 3 none).2.1.getBufferHeight = 3 ∧
     (CubismRenderTarget_WebGL.destroyRenderTarget
        (CubismRenderTarget_WebGL.createOffscreenRenderTarget
          (GLContext.init false false false false) CubismRenderTarget_WebGL.init 2 3 none).1
        (CubismRenderTarget_WebGL.createOffscreenRenderTarget
          (GLContext.init false false false false) CubismRenderTarget_WebGL.init 2 3 none).2.1).2.2 = none ∧
     (CubismRenderTarget_WebGL.destroyRenderTarget
        (CubismRenderTarget_WebGL.createOffscreenRenderTarget
          (GLContext.init false false false false) CubismRenderTarget_WebGL.init 2 3 none).1
        (CubismRenderTarget_WebGL.createOffscreenRenderTarget
          (GLContext.init false false false false) CubismRenderTarget_WebGL.init 2 3 none).2.1).2.1.isValid = false ∧
     CubismRenderTarget_WebGL.destroyRenderTarget
        (CubismRenderTarget_WebGL.destroyRenderTarget
          (CubismRenderTarget_WebGL.createOffscreenRenderTarget
            (GLContext.init false false false false) CubismRenderTarget_WebGL.init 2 3 none).1
          (CubismRenderTarget_WebGL.createOffscreenRenderTarget
            (GLContext.init false false false false) CubismRenderTarget_WebGL.init 2 3 none).2.1).1
        (CubismRenderTarget_WebGL.destroyRenderTarget
          (CubismRenderTarget_WebGL.createOffscreenRenderTarget
            (GLContext.init false false false false) CubismRenderTarget_WebGL.init 2 3 none).1
          (CubismRenderTarget_WebGL.createOffscreenRenderTarget
            (GLContext.init false false false false) CubismRenderTarget_WebGL.init 2 3 none).2.1).2.1 =
      ((CubismRenderTarget_WebGL.destroyRenderTarget
          (CubismRenderTarget_WebGL.createOffscreenRenderTarget
            (GLContext.init false false false false) CubismRenderTarget_WebGL.init 2 3 none).1
          (CubismRenderTarget_WebGL.createOffscreenRenderTarget
            (GLContext.init false false false false) CubismRenderTarget_WebGL.init 2 3 none).2.1).1,
       (CubismRenderTarget_WebGL.destroyRenderTarget
          (CubismRenderTarget_WebGL.createOffscreenRenderTarget
            (GLContext.init false false false false) CubismRenderTarget_WebGL.init 2 3 none).1
          (CubismRenderTarget_WebGL.createOffscreenRenderTarget
            (GLContext.init false false false false) CubismRenderTarget_WebGL.init 2 3 none).2.1).2.1,
       none)) :=
  ⟨by decide, by decide, rfl,
   c3_allocate_destroy_round_trip _ _ 2 3 none (by decide) (by decide) rfl⟩

/-- `RTInv` depends only on the fields it mentions: it transfers along
any step that leaves them unchanged. -/
theorem RTInv_congr (gl gl' : GLContext) (rt rt' : CubismRenderTarget_WebGL)
    (h : RTInv gl rt)
    (e1 : rt'.renderTexture = rt.renderTexture) (e2 : rt'.colorBuffer = rt.colorBuffer)
    (e3 : rt'.glSet = rt.glSet) (e4 : rt'.bufferWidth = rt.bufferWidth)
    (e5 : rt'.bufferHeight = rt.bufferHeight)
    (e6 : gl'.texDims = gl.texDims) (e7 : gl'.nextId = gl.nextId) :
    RTInv gl' rt' := by
  obtain ⟨h1, h2, h3⟩ := h
  refine ⟨?_, ?_, ?_⟩
  · intro f hf
    rw [e1] at hf
    rw [e3]
    exact h1 f hf
  · intro f hf
    rw [e1] at hf
    obtain ⟨t, ht, hl⟩ := h2 f hf
    exact ⟨t, by rw [e2]; exact ht, by rw [e6, e4, e5]; exact hl⟩
  · intro t ht
    rw [e2] at ht
    rw [e7]
    exact h3 t ht

/-- The allocation body, started from a resource-free target, always
produces a state satisfying `RTInv` — whatever the failure injection
and whether or not it throws. -/
theorem body_inv (gl : GLContext) (rt : CubismRenderTarget_WebGL)
    (w h : Int) (prev : Option Nat)
    (hc : rt.colorBuffer = none) (hr : rt.renderTexture = none) :
    RTInv (CubismRenderTarget_WebGL.createOffscreenBody gl rt w h prev).1
      (CubismRenderTarget_WebGL.createOffscreenBody gl rt w h prev).2.1 := by
  cases hft : gl.failTexture <;> cases hff : gl.failFramebuffer <;>
    cases hfi : gl.forceIncomplete <;> cases hg : rt.glSet <;>
    simp_all [RTInv, CubismRenderTarget_WebGL.createOffscreenBody, GLContext.createTexture,
      GLContext.bindTexture, GLContext.texImage2D, GLContext.texParameteri,
      GLContext.createFramebuffer, GLContext.bindFramebuffer,
      GLContext.framebufferTexture2D, GLContext.checkFramebufferStatus,
      GLContext.statusOf, GLContext.deleteFramebuffer, GLContext.deleteTexture,
      CubismRenderTarget_WebGL.destroyRenderTarget,
      CubismRenderTarget_WebGL.destroyFramebufferPart,
      GL_FRAMEBUFFER_COMPLETE, GL_FRAMEBUFFER_INCOMPLETE_ATTACHMENT, List.lookup] <;> omega

/-- One operation preserves `RTInv`, whether it returns normally or
throws (the state at the throw point is also invariant). -/
theorem inv_applyOp (gl : GLContext) (rt : CubismRenderTarget_WebGL) (op : Op)
    (h : RTInv gl rt) :
    RTInv (applyOp gl rt op).1 (applyOp gl rt op).2.1 := by
  cases op with
  | allocOp w hh p =>
    rcases hd : CubismRenderTarget_WebGL.destroyRenderTarget gl rt with ⟨gld, rtd, ed⟩
    rcases ed with _ | e
    · have hf := destroy_ok_fields gl rt (by rw [hd])
      rw [hd] at hf
      rcases hb : CubismRenderTarget_WebGL.createOffscreenBody gld rtd w hh p
        with ⟨glb, rtb, eb, bb⟩
      have hinv := body_inv gld rtd w hh p hf.1 hf.2.1
      rw [hb] at hinv
      have hred : applyOp gl rt (Op.allocOp w hh p) = (glb, rtb, eb) := by
        simp [applyOp, CubismRenderTarget_WebGL.createOffscreenRenderTarget, hd, hb]
      rw [hred]
      exact hinv
    · have he := destroy_err_eq gl rt e (by rw [hd])
      rw [hd] at he
      have hgl : gld = gl := congrArg Prod.fst he
      have hrt : rtd = rt := congrArg (fun x => x.2.1) he
      have hred : applyOp gl rt (Op.allocOp w hh p) = (gld, rtd, some e) := by
        simp [applyOp, CubismRenderTarget_WebGL.createOffscreenRenderTarget, hd]
      rw [hred, hgl, hrt]
      exact h
  | beginOp r =>
    rcases hrt : rt.renderTexture with _ | f
    · have hred : applyOp gl rt (Op.beginOp r) = (gl, rt, none) := by
        simp [applyOp, CubismRenderTarget_WebGL.beginDraw, hrt]
      rw [hred]
      exact h
    · have hg : rt.glSet = true := h.1 f hrt
      rcases r with _ | rf <;>
        (refine RTInv_congr gl _ rt _ h ?_ ?_ ?_ ?_ ?_ ?_ ?_ <;>
          simp [applyOp, CubismRenderTarget_WebGL.beginDraw, hrt, hg,
            GLContext.getFramebufferBinding, GLContext.bindFramebuffer])
  | endOp =>
    rcases hg : rt.glSet
    · have hred : applyOp gl rt Op.endOp = (gl, rt, some RTError.nullContext) := by
        simp [applyOp, CubismRenderTarget_WebGL.endDraw, hg]
      rw [hred]
      exact h
    · refine RTInv_congr gl _ rt _ h ?_ ?_ ?_ ?_ ?_ ?_ ?_ <;>
        simp [applyOp, CubismRenderTarget_WebGL.endDraw, hg, GLContext.bindFramebuffer]
  | clearOp r g b a =>
    rcases hg : rt.glSet
    · have hred : applyOp gl rt (Op.clearOp r g b a) = (gl, rt, some RTError.nullContext) := by
        simp [applyOp, CubismRenderTarget_WebGL.clear, hg]
      rw [hred]
      exact h
    · refine RTInv_congr gl _ rt _ h ?_ ?_ ?_ ?_ ?_ ?_ ?_ <;>
        simp [applyOp, CubismRenderTarget_WebGL.clear, hg,
          GLContext.clearColor, GLContext.clearBuffers]
  | destroyOp =>
    rcases hde : (CubismRenderTarget_WebGL.destroyRenderTarget gl rt).2.2 with _ | e
    · have hf := destroy_ok_fields gl rt hde
      have hred : applyOp gl rt Op.destroyOp =
          CubismRenderTarget_WebGL.destroyRenderTarget gl rt := rfl
      rw [hred]
      refine ⟨?_, ?_, ?_⟩
      · intro f hfx
        rw [hf.2.1] at hfx
        simp at hfx
      · intro f hfx
        rw [hf.2.1] at hfx
        simp at hfx
      · intro t htx
        rw [hf.1] at htx
        simp at htx
    · have he := destroy_err_eq gl rt e hde
      have hred : applyOp gl rt Op.destroyOp = (gl, rt, some e) := he
      rw [hred]
      exact h

/-- The invariant holds of a fresh context and a freshly constructed
target. -/
theorem inv_init (isW2 fT fF fI : Bool) :
    RTInv (GLContext.init isW2 fT fF fI) CubismRenderTarget_WebGL.init := by
  refine ⟨?_, ?_, ?_⟩ <;> intro x hx <;>
    simp [CubismRenderTarget_WebGL.init] at hx

/-- Every operation sequence preserves `RTInv`. -/
theorem inv_run (gl : GLContext) (rt : CubismRenderTarget_WebGL) (ops : List Op)
    (h : RTInv gl rt) : RTInv (run gl rt ops).1 (run gl rt ops).2.1 := by
  induction ops generalizing gl rt with
  | nil => simpa [run] using h
  | cons op ops ih =>
    have hstep := inv_applyOp gl rt op h
    rcases ha : applyOp gl rt op with ⟨gl', rt', e⟩
    rw [ha] at hstep
    rcases e with _ | e
    · have hred : run gl rt (op :: ops) = run gl' rt' ops := by simp [run, ha]
      rw [hred]
      exact ih gl' rt' hstep
    · have hred : run gl rt (op :: ops) = (gl', rt', some e) := by simp [run, ha]
      rw [hred]
      exact hstep

/-- Claim C2 (amended): after every sequence of operations on a single
target (construction, allocate, beginDraw, endDraw, clear, destroy, in
any order, under any failure injection), whenever the target owns a
framebuffer it also owns a color texture whose recorded allocation
dimensions equal the stored `bufferWidth`/`bufferHeight`.  The
converse direction of the original claim — owning no framebuffer
implies owning no texture — is false; see the counterexample. -/
theorem c2_owns_consistent_amended (isW2 fT fF fI : Bool) (ops : List Op) (f : Nat)
    (h : (run (GLContext.init isW2 fT fF fI) CubismRenderTarget_WebGL.init
        ops).2.1.renderTexture = some f) :
    ∃ t, (run (GLContext.init isW2 fT fF fI) CubismRenderTarget_WebGL.init
        ops).2.1.colorBuffer = some t ∧
      ((run (GLContext.init isW2 fT fF fI) CubismRenderTarget_WebGL.init
          ops).1.texDims).lookup t =
        some ((run (GLContext.init isW2 fT fF fI) CubismRenderTarget_WebGL.init
            ops).2.1.bufferWidth,
          (run (GLContext.init isW2 fT fF fI) CubismRenderTarget_WebGL.init
            ops).2.1.bufferHeight) :=
  (inv_run _ _ ops (inv_init isW2 fT fF fI)).2.1 f h

/-- Witness for the amended C2: one successful allocation. -/
theorem c2_owns_consistent_amended_witness :
    (run (GLContext.init false false false false) CubismRenderTarget_WebGL.init
      [Op.allocOp 2 3 none]).2.1.renderTexture = some 1 ∧
    ∃ t, (run (GLContext.init false false false false) CubismRenderTarget_WebGL.init
        [Op.allocOp 2 3 none]).2.1.colorBuffer = some t ∧
      ((run (GLContext.init false false false false) CubismRenderTarget_WebGL.init
          [Op.allocOp 2 3 none]).1.texDims).lookup t =
        some ((run (GLContext.init false false false false) CubismRenderTarget_WebGL.init
            [Op.allocOp 2 3 none]).2.1.bufferWidth,
          (run (GLContext.init false false false false) CubismRenderTarget_WebGL.init
            [Op.allocOp 2 3 none]).2.1.bufferHeight) :=
  ⟨rfl, c2_owns_consistent_amended false false false false [Op.allocOp 2 3 none] 1 rfl⟩

/-- Erasing a freshly appended element recovers the original list. -/
theorem erase_append_singleton (l : List Nat) (n : Nat) (h : n ∉ l) :
    (l ++ [n]).erase n = l := by
  rw [List.erase_append_right _ h, List.erase_cons_head, List.append_nil]

/-- `destroyRenderTarget` issues no creation calls: any creation call
in its output trace was already in the input trace. -/
theorem destroy_calls_no_creates (gl : GLContext) (rt : CubismRenderTarget_WebGL) :
    (∀ x, GLCall.createTexture (some x) ∈
        (CubismRenderTarget_WebGL.destroyRenderTarget gl rt).1.calls →
      GLCall.createTexture (some x) ∈ gl.calls) ∧
    (∀ x, GLCall.createFramebuffer (some x) ∈
        (CubismRenderTarget_WebGL.destroyRenderTarget gl rt).1.calls →
      GLCall.createFramebuffer (some x) ∈ gl.calls) := by
  rcases hc : rt.colorBuffer with _ | t <;> rcases hg : rt.glSet <;>
    rcases hr : rt.renderTexture with _ | f <;>
    simp_all [CubismRenderTarget_WebGL.destroyRenderTarget,
      CubismRenderTarget_WebGL.destroyFramebufferPart,
      GLContext.bindTexture, GLContext.deleteTexture,
      GLContext.bindFramebuffer, GLContext.deleteFramebuffer]

/-- `destroyRenderTarget` never adds live objects: its output live
sets are contained in the input live sets. -/
theorem destroy_live_subset (gl : GLContext) (rt : CubismRenderTarget_WebGL) :
    (∀ x, x ∈ (CubismRenderTarget_WebGL.destroyRenderTarget gl rt).1.liveTextures →
      x ∈ gl.liveTextures) ∧
    (∀ x, x ∈ (CubismRenderTarget_WebGL.destroyRenderTarget gl rt).1.liveFramebuffers →
      x ∈ gl.liveFramebuffers) := by
  rcases hc : rt.colorBuffer with _ | t <;> rcases hg : rt.glSet <;>
    rcases hr : rt.renderTexture with _ | f <;>
    simp_all [CubismRenderTarget_WebGL.destroyRenderTarget,
      CubismRenderTarget_WebGL.destroyFramebufferPart,
      GLContext.bindTexture, GLContext.deleteTexture,
      GLContext.bindFramebuffer, GLContext.deleteFramebuffer] <;>
    (try constructor) <;> (intro x hx; exact List.mem_of_mem_erase hx)

/-- Exact trace and live-set effect of the allocation body when
texture creation fails (and framebuffer creation succeeds): the
completeness check fails on the null attachment, the created
framebuffer is deleted, and the live sets are unchanged. -/
theorem body_trace_texture_failure (gl : GLContext) (rt : CubismRenderTarget_WebGL)
    (w h : Int) (prev : Option Nat)
    (hft : gl.failTexture = true) (hff : gl.failFramebuffer = false)
    (hr : rt.renderTexture = none)
    (hF1 : gl.nextId ∉ gl.liveFramebuffers) :
    (CubismRenderTarget_WebGL.createOffscreenBody gl rt w h prev).1.calls =
      gl.calls ++
        [GLCall.createTexture none,
         GLCall.bindTexture none,
         GLCall.texImage2D w h,
         GLCall.texParameteri GL_TEXTURE_WRAP_S GL_CLAMP_TO_EDGE,
         GLCall.texParameteri GL_TEXTURE_WRAP_T GL_CLAMP_TO_EDGE,
         GLCall.texParameteri GL_TEXTURE_MIN_FILTER GL_LINEAR,
         GLCall.texParameteri GL_TEXTURE_MAG_FILTER GL_LINEAR,
         GLCall.bindTexture none,
         GLCall.createFramebuffer (some gl.nextId),
         GLCall.bindFramebuffer FBTarget.framebuffer (some gl.nextId),
         GLCall.framebufferTexture2D none,
         GLCall.checkFramebufferStatus GL_FRAMEBUFFER_INCOMPLETE_ATTACHMENT,
         GLCall.bindFramebuffer FBTarget.framebuffer prev,
         GLCall.deleteFramebuffer (some gl.nextId)] ∧
    (CubismRenderTarget_WebGL.createOffscreenBody gl rt w h prev).1.liveTextures =
      gl.liveTextures ∧
    (CubismRenderTarget_WebGL.createOffscreenBody gl rt w h prev).1.liveFramebuffers =
      gl.liveFramebuffers := by
  cases hfi : gl.forceIncomplete <;>
    simp [CubismRenderTarget_WebGL.createOffscreenBody, GLContext.createTexture,
      GLContext.bindTexture, GLContext.texImage2D, GLContext.texParameteri,
      GLContext.createFramebuffer, GLContext.bindFramebuffer,
      GLContext.framebufferTexture2D, GLContext.checkFramebufferStatus,
      GLContext.statusOf, GLContext.deleteFramebuffer, GLContext.deleteTexture,
      CubismRenderTarget_WebGL.destroyRenderTarget,
      CubismRenderTarget_WebGL.destroyFramebufferPart,
      hft, hff, hfi, hr, erase_append_singleton _ _ hF1,
      GL_FRAMEBUFFER_COMPLETE, GL_FRAMEBUFFER_INCOMPLETE_ATTACHMENT, List.lookup]

/-- Exact trace and live-set effect of the allocation body when
texture and framebuffer creation succeed but the completeness check is
forced to fail: the framebuffer and the texture are both deleted and
the live sets are unchanged. -/
theorem body_trace_forced_incomplete (gl : GLContext) (rt : CubismRenderTarget_WebGL)
    (w h : Int) (prev : Option Nat)
    (hft : gl.failTexture = false) (hff : gl.failFramebuffer = false)
    (hfi : gl.forceIncomplete = true)
    (hg : rt.glSet = true) (hr : rt.renderTexture = none)
    (hT1 : gl.nextId ∉ gl.liveTextures)
    (hF2 : gl.nextId + 1 ∉ gl.liveFramebuffers) :
    (CubismRenderTarget_WebGL.createOffscreenBody gl rt w h prev).1.calls =
      gl.calls ++
        [GLCall.createTexture (some gl.nextId),
         GLCall.bindTexture (some gl.nextId),
         GLCall.texImage2D w h,
         GLCall.texParameteri GL_TEXTURE_WRAP_S GL_CLAMP_TO_EDGE,
         GLCall.texParameteri GL_TEXTURE_WRAP_T GL_CLAMP_TO_EDGE,
         GLCall.texParameteri GL_TEXTURE_MIN_FILTER GL_LINEAR,
         GLCall.texParameteri GL_TEXTURE_MAG_FILTER GL_LINEAR,
         GLCall.bindTexture none,
         GLCall.createFramebuffer (some (gl.nextId + 1)),
         GLCall.bindFramebuffer FBTarget.framebuffer (some (gl.nextId + 1)),
         GLCall.framebufferTexture2D (some gl.nextId),
         GLCall.checkFramebufferStatus GL_FRAMEBUFFER_INCOMPLETE_ATTACHMENT,
         GLCall.bindFramebuffer FBTarget.framebuffer prev,
         GLCall.deleteFramebuffer (some (gl.nextId + 1)),
         GLCall.bindTexture none,
         GLCall.deleteTexture (some gl.nextId)] ∧
    (CubismRenderTarget_WebGL.createOffscreenBody gl rt w h prev).1.liveTextures =
      gl.liveTextures ∧
    (CubismRenderTarget_WebGL.createOffscreenBody gl rt w h prev).1.liveFramebuffers =
      gl.liveFramebuffers := by
  simp [CubismRenderTarget_WebGL.createOffscreenBody, GLContext.createTexture,
    GLContext.bindTexture, GLContext.texImage2D, GLContext.texParameteri,
    GLContext.createFramebuffer, GLContext.bindFramebuffer,
    GLContext.framebufferTexture2D, GLContext.checkFramebufferStatus,
    GLContext.statusOf, GLContext.deleteFramebuffer, GLContext.deleteTexture,
    CubismRenderTarget_WebGL.destroyRenderTarget,
    CubismRenderTarget_WebGL.destroyFramebufferPart,
    hft, hff, hfi, hg, hr, erase_append_singleton _ _ hT1, erase_append_singleton _ _ hF2,
    GL_FRAMEBUFFER_COMPLETE, GL_FRAMEBUFFER_INCOMPLETE_ATTACHMENT, List.lookup]

/-- Claim C1 (amended): an `allocate` call that fails the framebuffer
completeness check — forced, or because texture creation failed, the
two completeness-failure modes when framebuffer creation itself
succeeds — on a target whose stored context is non-null, returns false
(without throwing), leaves the context's active framebuffer binding
equal to the `previousBinding` argument, and releases every
partially-created resource: the target retains nothing (`isValid`
false, both getters null), every texture or framebuffer whose creation
call belongs to this call's trace also has a deletion call in the
trace, and the context's live-object sets are exactly what they were
after the call's initial destroy of previously-owned resources —
nothing created by the failing call stays live.  (The
framebuffer-creation-failure path and targets with a null stored
context do not satisfy this; see the counterexample.) -/
theorem c1_rollback_amended (gl : GLContext) (rt : CubismRenderTarget_WebGL)
    (w h : Int) (prev : Option Nat)
    (hff : gl.failFramebuffer = false)
    (hfail : gl.forceIncomplete = true ∨ gl.failTexture = true)
    (hg : rt.glSet = true)
    (hwT : ∀ x ∈ gl.liveTextures, x < gl.nextId)
    (hwF : ∀ x ∈ gl.liveFramebuffers, x < gl.nextId) :
    (CubismRenderTarget_WebGL.createOffscreenRenderTarget gl rt w h prev).2.2.2 = false ∧
    (CubismRenderTarget_WebGL.createOffscreenRenderTarget gl rt w h prev).2.2.1 = none ∧
    (CubismRenderTarget_WebGL.createOffscreenRenderTarget gl rt w h prev).1.boundFramebuffer = prev ∧
    (CubismRenderTarget_WebGL.createOffscreenRenderTarget gl rt w h prev).2.1.getColorBuffer = none ∧
    (CubismRenderTarget_WebGL.createOffscreenRenderTarget gl rt w h prev).2.1.getRenderTexture = none ∧
    (CubismRenderTarget_WebGL.createOffscreenRenderTarget gl rt w h prev).2.1.isValid = false ∧
    (CubismRenderTarget_WebGL.createOffscreenRenderTarget gl rt w h prev).1.liveTextures =
      (CubismRenderTarget_WebGL.destroyRenderTarget gl rt).1.liveTextures ∧
    (CubismRenderTarget_WebGL.createOffscreenRenderTarget gl rt w h prev).1.liveFramebuffers =
      (CubismRenderTarget_WebGL.destroyRenderTarget gl rt).1.liveFramebuffers ∧
    (∀ x, GLCall.createTexture (some x) ∈
        (CubismRenderTarget_WebGL.createOffscreenRenderTarget gl rt w h prev).1.calls →
      GLCall.createTexture (some x) ∈ gl.calls ∨
        GLCall.deleteTexture (some x) ∈
          (CubismRenderTarget_WebGL.createOffscreenRenderTarget gl rt w h prev).1.calls) ∧
    (∀ x, GLCall.createFramebuffer (some x) ∈
        (CubismRenderTarget_WebGL.createOffscreenRenderTarget gl rt w h prev).1.calls →
      GLCall.createFramebuffer (some x) ∈ gl.calls ∨
        GLCall.deleteFramebuffer (some x) ∈
          (CubismRenderTarget_WebGL.createOffscreenRenderTarget gl rt w h prev).1.calls) := by
  rcases hd : CubismRenderTarget_WebGL.destroyRenderTarget gl rt with ⟨gld, rtd, ed⟩
  rcases ed with _ | e
  · have hf := destroy_ok_fields gl rt (by rw [hd])
    rw [hd] at hf
    have hfrt : rtd.renderTexture = none := hf.2.1
    have hfgs : rtd.glSet = rt.glSet := hf.2.2.1
    have hnx : gld.nextId = gl.nextId := hf.2.2.2.2.1
    have hfft : gld.failTexture = gl.failTexture := hf.2.2.2.2.2.1
    have hfff : gld.failFramebuffer = gl.failFramebuffer := hf.2.2.2.2.2.2.1
    have hffi : gld.forceIncomplete = gl.forceIncomplete := hf.2.2.2.2.2.2.2
    have hsub := destroy_live_subset gl rt
    rw [hd] at hsub
    have hwT' : ∀ x ∈ gld.liveTextures, x < gld.nextId := fun x hx => by
      rw [hnx]; exact hwT x (hsub.1 x hx)
    have hwF' : ∀ x ∈ gld.liveFramebuffers, x < gld.nextId := fun x hx => by
      rw [hnx]; exact hwF x (hsub.2 x hx)
    have hT1 : gld.nextId ∉ gld.liveTextures := fun hx => absurd (hwT' _ hx) (lt_irrefl _)
    have hF1 : gld.nextId ∉ gld.liveFramebuffers := fun hx => absurd (hwF' _ hx) (lt_irrefl _)
    have hF2 : gld.nextId + 1 ∉ gld.liveFramebuffers := fun hx => by
      have := hwF' _ hx; omega
    have hcalls := destroy_calls_no_creates gl rt
    rw [hd] at hcalls
    have hb := body_completeness_failure gld rtd w h prev
      (by rw [hfff, hff])
      (by rcases hfail with h1 | h1
          · exact Or.inl (by rw [hffi, h1])
          · exact Or.inr (by rw [hfft, h1]))
      (by rw [hfgs, hg]) hfrt
    have hred : CubismRenderTarget_WebGL.createOffscreenRenderTarget gl rt w h prev =
        CubismRenderTarget_WebGL.createOffscreenBody gld rtd w h prev := by
      simp [CubismRenderTarget_WebGL.createOffscreenRenderTarget, hd]
    rw [hred]
    rcases hft : gld.failTexture
    · -- texture creation succeeds; hfail forces the completeness check off
      have hfi : gld.forceIncomplete = true := by
        rcases hfail with h1 | h1
        · rw [hffi, h1]
        · rw [h1] at hfft; rw [hfft] at hft; cases hft
      have bt := body_trace_forced_incomplete gld rtd w h prev hft
        (by rw [hfff, hff]) hfi (by rw [hfgs, hg]) hfrt hT1 hF2
      refine ⟨hb.1, hb.2.1, hb.2.2.1, hb.2.2.2.1, hb.2.2.2.2,
        (by rw [CubismRenderTarget_WebGL.isValid, hb.2.2.2.2]; rfl),
        bt.2.1, bt.2.2, ?_, ?_⟩
      · intro x hx
        rw [bt.1] at hx
        rcases List.mem_append.mp hx with h1 | h1
        · exact Or.inl (hcalls.1 x h1)
        · simp only [List.mem_cons, List.not_mem_nil, or_false] at h1
          simp only [GLCall.createTexture.injEq, Option.some.injEq, reduceCtorEq,
            or_false, false_or] at h1
          subst h1
          refine Or.inr ?_
          rw [bt.1]
          simp
      · intro x hx
        rw [bt.1] at hx
        rcases List.mem_append.mp hx with h1 | h1
        · exact Or.inl (hcalls.2 x h1)
        · simp only [List.mem_cons, List.not_mem_nil, or_false] at h1
          simp only [GLCall.createFramebuffer.injEq, Option.some.injEq, reduceCtorEq,
            or_false, false_or] at h1
          subst h1
          refine Or.inr ?_
          rw [bt.1]
          simp
    · -- texture creation fails; the null attachment makes the check fail
      have bt := body_trace_texture_failure gld rtd w h prev hft
        (by rw [hfff, hff]) hfrt hF1
      refine ⟨hb.1, hb.2.1, hb.2.2.1, hb.2.2.2.1, hb.2.2.2.2,
        (by rw [CubismRenderTarget_WebGL.isValid, hb.2.2.2.2]; rfl),
        bt.2.1, bt.2.2, ?_, ?_⟩
      · intro x hx
        rw [bt.1] at hx
        rcases List.mem_append.mp hx with h1 | h1
        · exact Or.inl (hcalls.1 x h1)
        · simp at h1
      · intro x hx
        rw [bt.1] at hx
        rcases List.mem_append.mp hx with h1 | h1
        · exact Or.inl (hcalls.2 x h1)
        · simp only [List.mem_cons, List.not_mem_nil, or_false] at h1
          simp only [GLCall.createFramebuffer.injEq, Option.some.injEq, reduceCtorEq,
            or_false, false_or] at h1
          subst h1
          refine Or.inr ?_
          rw [bt.1]
          simp
  · have := destroy_glSet_no_error gl rt hg
    rw [hd] at this
    exact absurd this (by simp)

/-- Witness for the amended C1: a concrete context with the
completeness check forced to fail (empty live sets, so well-formed)
and a target with a stored context. -/
theorem c1_rollback_amended_witness :
    (GLContext.init false false false true).failFramebuffer = false ∧
    ((GLContext.init false false false true).forceIncomplete = true ∨
      (GLContext.init false false false true).failTexture = true) ∧
    ({ CubismRenderTarget_WebGL.init with glSet := true } :
        CubismRenderTarget_WebGL).glSet = true ∧
    (∀ x ∈ (GLContext.init false false false true).liveTextures,
      x < (GLContext.init false false false true).nextId) ∧
    (∀ x ∈ (GLContext.init false false false true).liveFramebuffers,
      x < (GLContext.init false false false true).nextId) ∧
    (let gl := GLContext.init false false false true
     let rt : CubismRenderTarget_WebGL := { CubismRenderTarget_WebGL.init with glSet := true }
     (CubismRenderTarget_WebGL.createOffscreenRenderTarget gl rt 2 3 (some 7)).2.2.2 = false ∧
     (CubismRenderTarget_WebGL.createOffscreenRenderTarget gl rt 2 3 (some 7)).2.2.1 = none ∧
     (CubismRenderTarget_WebGL.createOffscreenRenderTarget gl rt 2 3 (some 7)).1.boundFramebuffer = some 7 ∧
     (CubismRenderTarget_WebGL.createOffscreenRenderTarget gl rt 2 3 (some 7)).2.1.getColorBuffer = none ∧
     (CubismRenderTarget_WebGL.createOffscreenRenderTarget gl rt 2 3 (some 7)).2.1.getRenderTexture = none ∧
     (CubismRenderTarget_WebGL.createOffscreenRenderTarget gl rt 2 3 (some 7)).2.1.isValid = false ∧
     (CubismRenderTarget_WebGL.createOffscreenRenderTarget gl rt 2 3 (some 7)).1.liveTextures =
       (CubismRenderTarget_WebGL.destroyRenderTarget gl rt).1.liveTextures ∧
     (CubismRenderTarget_WebGL.createOffscreenRenderTarget gl rt 2 3 (some 7)).1.liveFramebuffers =
       (CubismRenderTarget_WebGL.destroyRenderTarget gl rt).1.liveFramebuffers ∧
     (∀ x, GLCall.createTexture (some x) ∈
         (CubismRenderTarget_WebGL.createOffscreenRenderTarget gl rt 2 3 (some 7)).1.calls →
       GLCall.createTexture (some x) ∈ gl.calls ∨
         GLCall.deleteTexture (some x) ∈
           (CubismRenderTarget_WebGL.createOffscreenRenderTarget gl rt 2 3 (some 7)).1.calls) ∧
     (∀ x, GLCall.createFramebuffer (some x) ∈
         (CubismRenderTarget_WebGL.createOffscreenRenderTarget gl rt 2 3 (some 7)).1.calls →
       GLCall.createFramebuffer (some x) ∈ gl.calls ∨
         GLCall.deleteFramebuffer (some x) ∈
           (CubismRenderTarget_WebGL.createOffscreenRenderTarget gl rt 2 3 (some 7)).1.calls)) :=
  ⟨rfl, Or.inl rfl, rfl, by simp [GLContext.init], by simp [GLContext.init],
   c1_rollback_amended _ _ 2 3 (some 7) rfl (Or.inl rfl) rfl
     (by simp [GLContext.init]) (by simp [GLContext.init])⟩
